import Mathlib

/-!
Shallow embedding of the health analytics inference engine of the
smart-wearable-device backend (`backend-api/services/ml_service.py`,
`backend-api/services/cnn_activity_model.py`).

Numeric modelling conventions:
* Host-language floats are modelled by `ℚ`; the single place where an exact
  square root is required (the per-row Euclidean norm of the acceleration
  vector in the sleep-stage estimator) is modelled over `ℝ` with `Real.sqrt`.
* A sample field that is absent or null is modelled as `Option.none`
  (the data model treats absent and null uniformly: a dataframe column
  exists with a usable value exactly when some sample supplies one).
* A pandas column statistic (`mean`, `std`) skips missing values; `std` uses
  ddof = 1 and is NaN when fewer than two values are present.  NaN is
  modelled as `Option.none`, and every comparison against NaN is false.
* Comparisons of a standard deviation against a constant `c > 0` are encoded
  on the squared level: `std < c ↔ var < c^2` (both sides non-negative), so
  the embedding stores the sample variance and compares with `c^2`.
-/

namespace SmartWearable

/-- One vitals observation; any field may be absent/null. -/
structure VitalsSample where
  heart_rate : Option ℚ
  spo2 : Option ℚ
  temperature : Option ℚ
  steps : Option ℚ
  deriving DecidableEq, Repr

/-- One inertial-measurement observation; any field may be absent/null. -/
structure IMUSample where
  accel_x : Option ℚ
  accel_y : Option ℚ
  accel_z : Option ℚ
  gyro_x : Option ℚ
  gyro_y : Option ℚ
  gyro_z : Option ℚ
  deriving DecidableEq, Repr

/-- The values present in one column of the dataframe built from `l`. -/
def colVals {α : Type} (f : α → Option ℚ) (l : List α) : List ℚ :=
  l.filterMap f

/-- Column mean, skipping missing values; `none` when no value is present
(the NaN mean of an empty series). -/
def colMean {α : Type} (f : α → Option ℚ) (l : List α) : Option ℚ :=
  let v := colVals f l
  if v.length = 0 then none else some (v.sum / (v.length : ℚ))

/-- Squared column standard deviation (sample variance, ddof = 1) over the
present values; `none` models the NaN `std` of fewer than two values. -/
def colVarD {α : Type} (f : α → Option ℚ) (l : List α) : Option ℚ :=
  let v := colVals f l
  if v.length < 2 then none
  else some ((v.map (fun x => (x - v.sum / (v.length : ℚ)) ^ 2)).sum / ((v.length : ℚ) - 1))

/-- Whether the `heart_rate` column carries at least one present value. -/
def hasHeartRate (df : List VitalsSample) : Bool :=
  !(colVals VitalsSample.heart_rate df).isEmpty

/-- Comparison of a possibly-NaN squared std: true only on a present
value (NaN comparisons are false); `c2` is the squared threshold. -/
def stdLT (o : Option ℚ) (c2 : ℚ) : Bool :=
  match o with
  | some v => decide (v < c2)
  | none => false

/-- Strict `>` against a possibly-NaN squared std. -/
def stdGT (o : Option ℚ) (c2 : ℚ) : Bool :=
  match o with
  | some v => decide (c2 < v)
  | none => false

/-! ## Anomaly detection (`MLService._detect_anomalies`) -/

/-- The candidate feature columns, in source order. -/
def featureCols : List (VitalsSample → Option ℚ) :=
  [VitalsSample.heart_rate, VitalsSample.spo2, VitalsSample.temperature]

/-- The candidate columns that exist in the batch dataframe. -/
def availableCols (df : List VitalsSample) : List (VitalsSample → Option ℚ) :=
  featureCols.filter (fun f => !(colVals f df).isEmpty)

/-- The feature matrix: one row per sample over the available columns, with
missing cells imputed by the column mean (`fillna(mean)`). -/
def featureMatrix (df : List VitalsSample) : List (List ℚ) :=
  df.map (fun s => (availableCols df).map (fun f => (f s).getD ((colMean f df).getD 0)))

/-- Embedding of `MLService._detect_anomalies`.  The isolation forest is abstracted as a
function `forest` from the fitted feature matrix to per-row outlier flags
(mirroring `fit_predict(X) == -1`). -/
def detect_anomalies (forest : List (List ℚ) → List Bool)
    (df : List VitalsSample) : List Bool :=
  if df.isEmpty || !hasHeartRate df then []
  else if (availableCols df).isEmpty then []
  else forest (featureMatrix df)

/-! ## Risk score (`MLService._calculate_risk_score`) -/

/-- Embedding of `MLService._calculate_risk_score`: base 50, additive penalties, clamp. -/
def calculate_risk_score (df : List VitalsSample) (anomalies : List Bool) : ℚ :=
  if df.isEmpty then 50
  else
    let r1 : ℚ := 50 +
      (match colMean VitalsSample.heart_rate df with
       | some m =>
         (if m > 100 ∨ m < 60 then (10 : ℚ) else 0) +
         (if anomalies.any id then (15 : ℚ) else 0)
       | none => 0)
    let r2 : ℚ := r1 +
      (match colMean VitalsSample.spo2 df with
       | some m => if m < 95 then (20 : ℚ) else 0
       | none => 0)
    let r3 : ℚ := r2 +
      (match colMean VitalsSample.temperature df with
       | some m => if m > 37.5 ∨ m < 36 then (10 : ℚ) else 0
       | none => 0)
    min 100 (max 0 r3)

/-- The heart-rate penalty condition (requires the column to exist). -/
def hrPenalty (df : List VitalsSample) : Bool :=
  match colMean VitalsSample.heart_rate df with
  | some m => decide (m > 100 ∨ m < 60)
  | none => false

/-- The anomaly penalty condition (gated, as in the source, on the
heart-rate column existing). -/
def anomalyPenalty (df : List VitalsSample) (anomalies : List Bool) : Bool :=
  (colMean VitalsSample.heart_rate df).isSome && anomalies.any id

/-- The low-oxygen penalty condition. -/
def spo2Penalty (df : List VitalsSample) : Bool :=
  match colMean VitalsSample.spo2 df with
  | some m => decide (m < 95)
  | none => false

/-- The temperature penalty condition. -/
def tempPenalty (df : List VitalsSample) : Bool :=
  match colMean VitalsSample.temperature df with
  | some m => decide (m > 37.5 ∨ m < 36)
  | none => false

/-- The risk score as a function of the four penalty conditions. -/
def riskOfConds (c1 c2 c3 c4 : Bool) : ℚ :=
  min 100 (max 0 ((50 : ℚ) + (if c1 then 10 else 0) + (if c2 then 15 else 0) +
    (if c3 then 20 else 0) + (if c4 then 10 else 0)))

/-! ## Categorical predictors -/

/-- Embedding of `MLService._predict_cardiovascular_risk`. -/
def predict_cardiovascular_risk (df : List VitalsSample) : String :=
  match colMean VitalsSample.heart_rate df with
  | none => "low"
  | some m => if m > 100 then "high" else if m > 85 then "moderate" else "low"

/-- Embedding of `MLService._predict_sleep_quality`.  The source compares the heart-rate
std with 5 and 10; here the squared std is compared with 25 and 100.  A NaN
std (single present value) fails both comparisons and falls to the final
branch, 60. -/
def predict_sleep_quality (df : List VitalsSample) : Int :=
  if df.isEmpty then 75
  else if hasHeartRate df then
    match colVarD VitalsSample.heart_rate df with
    | some v => if v < 25 then 90 else if v < 100 then 75 else 60
    | none => 60
  else 75

/-- Embedding of `MLService._predict_stress_level` (the rule-based heuristic).  The std
thresholds 15 and 10 of the source appear squared as 225 and 100. -/
def predict_stress_level (df : List VitalsSample) : String :=
  if df.isEmpty || !hasHeartRate df then "moderate"
  else
    let mOpt := colMean VitalsSample.heart_rate df
    let vOpt := colVarD VitalsSample.heart_rate df
    let mGT : ℚ → Bool := fun c =>
      match mOpt with
      | some m => decide (m > c)
      | none => false
    if mGT 90 || stdGT vOpt 225 then "high"
    else if mGT 75 || stdGT vOpt 100 then "moderate"
    else "low"

/-- Embedding of `MLService._predict_stress_level_lstm`.  The LSTM inference
(`prepare_sequences` followed by `predict`) is abstracted as a function
`lstm` returning `Except`: `Except.error` models the model raising, and the
surrounding `try/except` of the source becomes the `match`. -/
def predict_stress_level_lstm (lstm : List VitalsSample → Except String String)
    (vitals : List VitalsSample) : String :=
  if vitals.length < 10 then
    if !vitals.isEmpty then predict_stress_level vitals else "moderate"
  else
    match lstm vitals with
    | Except.ok s => s
    | Except.error _ => if !vitals.isEmpty then predict_stress_level vitals else "moderate"

/-! ## Recommendations (`MLService._generate_recommendations`) -/

/-- Gate: the steps column exists and the skip-NaN column sum is below 5000. -/
def gateSteps (df : List VitalsSample) : Bool :=
  !(colVals VitalsSample.steps df).isEmpty &&
    decide ((colVals VitalsSample.steps df).sum < 5000)

/-- Gate: the spo2 column exists and its mean is below 95. -/
def gateSpo2 (df : List VitalsSample) : Bool :=
  match colMean VitalsSample.spo2 df with
  | some m => decide (m < 95)
  | none => false

/-- Gate: the temperature column exists and its mean exceeds 37.5. -/
def gateTemp (df : List VitalsSample) : Bool :=
  match colMean VitalsSample.temperature df with
  | some m => decide (m > 37.5)
  | none => false

/-- Embedding of `MLService._generate_recommendations`: the sequential gated appends of
the source are written as a concatenation in the same order, followed by the
empty-list fallback. -/
def generate_recommendations (risk_score : ℚ) (sleep_quality : Int)
    (stress_level : String) (df : List VitalsSample) : List String :=
  let recs :=
    (if risk_score > 70 then ["Consider consulting a healthcare professional"] else []) ++
    (if sleep_quality < 70 then ["Improve sleep hygiene - aim for 7-9 hours of sleep"] else []) ++
    (if stress_level = "high" then ["Practice stress-reduction techniques (meditation, deep breathing)"] else []) ++
    (if gateSteps df then ["Increase daily activity - aim for at least 10,000 steps"] else []) ++
    (if gateSpo2 df then ["Ensure adequate oxygen intake - consider breathing exercises"] else []) ++
    (if gateTemp df then ["Monitor temperature - consider rest and hydration"] else [])
  if recs.isEmpty then ["Maintain current healthy lifestyle"] else recs

/-! ## Orchestrator (`MLService.predict_health`) -/

/-- The assembled prediction record (the nested `predictions` mapping of the
source is flattened into fields). -/
structure PredictionRecord where
  risk_score : ℚ
  cardiovascular_risk : String
  sleep_quality : Int
  stress_level : String
  recommendations : List String
  deriving DecidableEq, Repr

/-- Embedding of `MLService._default_predictions`. -/
def default_predictions : PredictionRecord :=
  { risk_score := 50
    cardiovascular_risk := "low"
    sleep_quality := 75
    stress_level := "moderate"
    recommendations := ["Collect more data for accurate predictions"] }

/-- Embedding of `MLService.predict_health`, parameterised by the two model oracles. -/
def predict_health (forest : List (List ℚ) → List Bool)
    (lstm : List VitalsSample → Except String String)
    (vitals : List VitalsSample) : PredictionRecord :=
  if vitals.isEmpty then default_predictions
  else
    let anomalies := detect_anomalies forest vitals
    let risk := calculate_risk_score vitals anomalies
    let sq := predict_sleep_quality vitals
    let stress := predict_stress_level_lstm lstm vitals
    let cardio := predict_cardiovascular_risk vitals
    { risk_score := risk
      cardiovascular_risk := cardio
      sleep_quality := sq
      stress_level := stress
      recommendations := generate_recommendations risk sq stress vitals }

/-! ## Activity windows (`CNNActivityModel.prepare_windows`) -/

/-- The fixed window size of the activity model. -/
def windowSize : Nat := 50

/-- The 6-feature tuple of one IMU point: `point.get(k, 0.0) or 0.0` maps an
absent or null field to `0.0`. -/
def featTuple (p : IMUSample) : List ℚ :=
  [p.accel_x.getD 0, p.accel_y.getD 0, p.accel_z.getD 0,
   p.gyro_x.getD 0, p.gyro_y.getD 0, p.gyro_z.getD 0]

/-- The empty dict used by the source when padding an empty history. -/
def emptyPoint : IMUSample :=
  { accel_x := none, accel_y := none, accel_z := none
    gyro_x := none, gyro_y := none, gyro_z := none }

/-- Embedding of `CNNActivityModel.prepare_windows`: left-pad a short history with copies
of `imu_data[-1]` (the empty dict when the history is empty), then take the
last `windowSize` points and extract the feature tuples.  The final numpy
reshape to `(1, 50, 6)` is dropped: the window content is the
`List (List ℚ)`. -/
def prepare_windows (imu : List IMUSample) : List (List ℚ) :=
  let data :=
    if imu.length < windowSize then
      List.replicate (windowSize - imu.length) (imu.getLast?.getD emptyPoint) ++ imu
    else imu
  (data.drop (data.length - windowSize)).map featTuple

/-! ## Sleep stages (`MLService.predict_sleep_stages`)

The classifier output: four stage probabilities and the dominant label. -/

structure SleepDist where
  wake : ℚ
  light : ℚ
  deep : ℚ
  rem : ℚ
  dominant_stage : String
  deriving DecidableEq, Repr

/-- The neutral default distribution returned on an empty history. -/
def sleepDefaultDist : SleepDist :=
  { wake := 2/10, light := 3/10, deep := 3/10, rem := 2/10, dominant_stage := "light" }

/-- The distribution of the high-movement (wake) rule. -/
def sleepWakeDist : SleepDist :=
  { wake := 7/10, light := 2/10, deep := 1/20, rem := 1/20, dominant_stage := "wake" }

/-- Heart-rate features `[hr_mean, hr_std]` of the sleep-stage estimator,
with the squared std in the second component: the defaults `[70.0, 5.0]`
(used when the column is missing) become `(70, some 25)`, and a NaN std is
`none`. -/
def hrFeatures (vitals : List VitalsSample) : ℚ × Option ℚ :=
  if !hasHeartRate vitals then (70, some 25)
  else ((colMean VitalsSample.heart_rate vitals).getD 70,
        colVarD VitalsSample.heart_rate vitals)

/-- Per-row magnitude `sqrt(accel_x**2 + accel_y**2 + accel_z**2)`: NaN
(`none`) when any of the three components is missing, mirroring NaN
propagation through the elementwise squares and sums. -/
noncomputable def rowMagnitude (p : IMUSample) : Option ℝ :=
  match p.accel_x, p.accel_y, p.accel_z with
  | some x, some y, some z => some (Real.sqrt (((x ^ 2 + y ^ 2 + z ^ 2 : ℚ) : ℝ)))
  | _, _, _ => none

/-- The movement feature.  The source checks only the `accel_x` column and
then accesses `df_imu['accel_y']` and `df_imu['accel_z']` unconditionally
(ml_service.py lines 164-169): when `accel_x` has a present value but no
sample supplies an `accel_y` (resp. `accel_z`) value, the host program
raises (KeyError for the missing column; TypeError on an all-null object
column), modelled as `Except.error`.  Otherwise the feature is the skip-NaN
mean of the per-row magnitudes when the `accel_x` column exists, or the
default `0.1` when it does not; `Except.ok none` models the NaN mean of an
all-NaN magnitude series. -/
noncomputable def movementFeature (imu : List IMUSample) : Except String (Option ℝ) :=
  if (imu.filterMap IMUSample.accel_x).isEmpty then Except.ok (some (1/10))
  else if (imu.filterMap IMUSample.accel_y).isEmpty then Except.error "KeyError: accel_y"
  else if (imu.filterMap IMUSample.accel_z).isEmpty then Except.error "KeyError: accel_z"
  else
    let mags := imu.filterMap rowMagnitude
    if mags.isEmpty then Except.ok none
    else Except.ok (some (mags.sum / (mags.length : ℝ)))

/-- The wake-rule condition `movement > c` (false against NaN). -/
def movementGT (o : Option ℝ) (c : ℝ) : Prop :=
  ∃ v, o = some v ∧ c < v

open Classical in
/-- Embedding of `MLService.predict_sleep_stages`.  The SpO2 features `features[3..4]`
of the source are computed but never read by the heuristic, so they are not
materialised here.  Std thresholds 3 and 5 appear squared as 9 and 25.  The
result is `Except`: an error of the movement-feature computation (the
uncaught KeyError of the source, see `movementFeature`) propagates out of
the function; every other input yields a distribution. -/
noncomputable def predict_sleep_stages (vitals : List VitalsSample)
    (imu : List IMUSample) : Except String SleepDist :=
  if vitals.isEmpty || imu.isEmpty then Except.ok sleepDefaultDist
  else
    match movementFeature imu with
    | Except.error e => Except.error e
    | Except.ok mv =>
      if movementGT mv (1/2) then Except.ok sleepWakeDist
      else if stdLT (hrFeatures vitals).2 9 && decide ((hrFeatures vitals).1 < 65) then
        Except.ok { wake := 1/20, light := 1/10, deep := 7/10, rem := 3/20, dominant_stage := "deep" }
      else if stdLT (hrFeatures vitals).2 25 && decide (60 < (hrFeatures vitals).1) &&
          decide ((hrFeatures vitals).1 < 75) then
        Except.ok { wake := 1/10, light := 2/10, deep := 2/10, rem := 1/2, dominant_stage := "rem" }
      else
        Except.ok { wake := 3/20, light := 1/2, deep := 2/10, rem := 3/20, dominant_stage := "light" }

/-- The label of the first maximal probability in the order
`wake, light, deep, rem` (the tie-breaking of `np.argmax`). -/
def argmaxStage (w l d r : ℚ) : String :=
  let m := max (max w l) (max d r)
  if w = m then "wake" else if l = m then "light" else if d = m then "deep" else "rem"

/-! ## Concrete inputs used by witnesses and counterexamples -/

/-- An IMU point whose `accel_x` is `x` and whose other fields are zero. -/
def imuPt (x : ℚ) : IMUSample :=
  { accel_x := some x, accel_y := some 0, accel_z := some 0
    gyro_x := some 0, gyro_y := some 0, gyro_z := some 0 }

/-- A vitals sample carrying only a heart rate. -/
def sHR (q : ℚ) : VitalsSample :=
  { heart_rate := some q, spo2 := none, temperature := none, steps := none }

/-- A vitals sample carrying only an oxygen saturation. -/
def spo2Only : VitalsSample :=
  { heart_rate := none, spo2 := some 97, temperature := none, steps := none }

/-- The batch of the high-risk scenario. -/
def highRiskSample : VitalsSample :=
  { heart_rate := some 110, spo2 := some 90, temperature := some 38, steps := none }

/-- A length-preserving outlier model: no row is flagged. -/
def constForest : List (List ℚ) → List Bool := fun X => X.map (fun _ => false)

/-- An LSTM oracle that always raises. -/
def lstmFail : List VitalsSample → Except String String :=
  fun _ => Except.error "inference failure"

/-! ## Helper lemmas -/

/-- A non-nil list has `isEmpty = false`. -/
theorem isEmpty_false_of_ne_nil {α : Type} {l : List α} (h : l ≠ []) :
    l.isEmpty = false := by
  cases l with
  | nil => exact absurd rfl h
  | cons a t => rfl

/-- A present column mean forces a non-empty batch. -/
theorem ne_nil_of_colMean_some {α : Type} {f : α → Option ℚ} {l : List α} {m : ℚ}
    (h : colMean f l = some m) : l ≠ [] := by
  intro hnil
  subst hnil
  simp [colMean, colVals] at h

/-- A present column variance forces at least two present values, hence a
non-empty batch with a present column. -/
theorem colVarD_some_facts {f : VitalsSample → Option ℚ} {l : List VitalsSample} {v : ℚ}
    (h : colVarD f l = some v) :
    (colVals f l) ≠ [] ∧ l ≠ [] := by
  have hlen : ¬ (colVals f l).length < 2 := by
    intro hlt
    simp only [colVarD, hlt, if_pos] at h
    exact Option.noConfusion h
  have hne : colVals f l ≠ [] := by
    intro hnil
    rw [hnil] at hlen
    simp at hlen
  refine ⟨hne, ?_⟩
  intro hnil
  subst hnil
  exact hne rfl

/-! ## Claim theorems -/

/-- Claim C8: for the empty vitals sequence, `predict_health` returns exactly
the default record with risk score 50.0, cardiovascular risk "low", sleep
quality 75, stress level "moderate", and the single recommendation
"Collect more data for accurate predictions"; the result is independent of
the detector and classifier oracles (they are never invoked). -/
theorem C8_empty_history_default (forest : List (List ℚ) → List Bool)
    (lstm : List VitalsSample → Except String String) :
    predict_health forest lstm [] = default_predictions ∧
    default_predictions =
      { risk_score := 50
        cardiovascular_risk := "low"
        sleep_quality := 75
        stress_level := "moderate"
        recommendations := ["Collect more data for accurate predictions"] } :=
  ⟨rfl, rfl⟩

/-- Claim C10: the sleep quality is always one of {60, 75, 90} (hence within
[0, 100]); it is 75 on an empty history or when no heart-rate value is
present, 90 when the heart-rate std is below 5 (variance below 25), 75 when
the std is in [5, 10) (variance in [25, 100)), and 60 otherwise — in
particular an undefined std (fewer than two present heart-rate values, e.g.
a single-sample history) yields 60, not 75. -/
theorem C10_sleep_quality_codomain (df : List VitalsSample) :
    (predict_sleep_quality df = 60 ∨ predict_sleep_quality df = 75 ∨
      predict_sleep_quality df = 90) ∧
    (0 ≤ predict_sleep_quality df ∧ predict_sleep_quality df ≤ 100) ∧
    (df = [] → predict_sleep_quality df = 75) ∧
    (hasHeartRate df = false → predict_sleep_quality df = 75) ∧
    (∀ v, colVarD VitalsSample.heart_rate df = some v → v < 25 →
      predict_sleep_quality df = 90) ∧
    (∀ v, colVarD VitalsSample.heart_rate df = some v → 25 ≤ v → v < 100 →
      predict_sleep_quality df = 75) ∧
    (∀ v, colVarD VitalsSample.heart_rate df = some v → 100 ≤ v →
      predict_sleep_quality df = 60) ∧
    (df ≠ [] → hasHeartRate df = true → colVarD VitalsSample.heart_rate df = none →
      predict_sleep_quality df = 60) := by
  have hcod : predict_sleep_quality df = 60 ∨ predict_sleep_quality df = 75 ∨
      predict_sleep_quality df = 90 := by
    unfold predict_sleep_quality
    split_ifs with h1 h2
    · exact Or.inr (Or.inl rfl)
    · cases hv : colVarD VitalsSample.heart_rate df with
      | none => exact Or.inl rfl
      | some v =>
        dsimp only
        split_ifs with hv1 hv2
        · exact Or.inr (Or.inr rfl)
        · exact Or.inr (Or.inl rfl)
        · exact Or.inl rfl
    · exact Or.inr (Or.inl rfl)
  have hsome : ∀ v, colVarD VitalsSample.heart_rate df = some v →
      df.isEmpty = false ∧ hasHeartRate df = true := by
    intro v hv
    obtain ⟨hcv, hne⟩ := colVarD_some_facts hv
    refine ⟨isEmpty_false_of_ne_nil hne, ?_⟩
    unfold hasHeartRate
    simp [List.isEmpty_iff, hcv]
  refine ⟨hcod, ?_, ?_, ?_, ?_, ?_, ?_, ?_⟩
  · rcases hcod with h | h | h <;> rw [h] <;> constructor <;> norm_num
  · intro h
    subst h
    rfl
  · intro h
    unfold predict_sleep_quality
    split_ifs with h1 h2
    · rfl
    · rw [h] at h2
      exact absurd h2 (by simp)
    · rfl
  · intro v hv hlt
    obtain ⟨hdf, hhr⟩ := hsome v hv
    simp [predict_sleep_quality, hdf, hhr, hv, hlt]
  · intro v hv hge hlt
    obtain ⟨hdf, hhr⟩ := hsome v hv
    have h1 : ¬ v < 25 := by linarith
    simp [predict_sleep_quality, hdf, hhr, hv, h1, hlt]
  · intro v hv hge
    obtain ⟨hdf, hhr⟩ := hsome v hv
    have h1 : ¬ v < 25 := by linarith
    have h2 : ¬ v < 100 := by linarith
    simp [predict_sleep_quality, hdf, hhr, hv, h1, h2]
  · intro hne hhr hv
    simp [predict_sleep_quality, isEmpty_false_of_ne_nil hne, hhr, hv]

/-- Witness for C10: a single-sample history (undefined heart-rate std)
yields 60, not 75. -/
theorem C10_witness : predict_sleep_quality [sHR 70] = 60 := by
  refine (C10_sleep_quality_codomain [sHR 70]).2.2.2.2.2.2.2 ?_ ?_ ?_
  · simp
  · rfl
  · rfl

/-- Claim C4: a batch with mean heart rate 110, mean SpO2 90, mean
temperature 38.0 together with at least one flagged anomaly scores exactly
100 (50 + 10 + 15 + 20 + 10 clamped to 100), and the cardiovascular label is
"high"; the label rule is high iff mean HR > 100, moderate iff > 85, else
low, with "low" when heart-rate data is unavailable. -/
theorem C4_high_risk_scenario (df : List VitalsSample) (anomalies : List Bool)
    (hhr : colMean VitalsSample.heart_rate df = some 110)
    (hsp : colMean VitalsSample.spo2 df = some 90)
    (htp : colMean VitalsSample.temperature df = some 38)
    (han : anomalies.any id = true) :
    calculate_risk_score df anomalies = 100 ∧
    predict_cardiovascular_risk df = "high" ∧
    (∀ df2 m, colMean VitalsSample.heart_rate df2 = some m →
      predict_cardiovascular_risk df2 =
        (if m > 100 then "high" else if m > 85 then "moderate" else "low")) ∧
    (∀ df2, colMean VitalsSample.heart_rate df2 = none →
      predict_cardiovascular_risk df2 = "low") := by
  have hdf : df.isEmpty = false := isEmpty_false_of_ne_nil (ne_nil_of_colMean_some hhr)
  refine ⟨?_, ?_, ?_, ?_⟩
  · unfold calculate_risk_score
    rw [hdf]
    norm_num [hhr, hsp, htp, han]
  · unfold predict_cardiovascular_risk
    rw [hhr]
    norm_num
  · intro df2 m h
    unfold predict_cardiovascular_risk
    rw [h]
  · intro df2 h
    unfold predict_cardiovascular_risk
    rw [h]

/-- Witness for C4: the one-sample batch `(110, 90, 38)` with one flagged
anomaly scores 100 and is labelled "high". -/
theorem C4_witness :
    calculate_risk_score [highRiskSample] [true] = 100 ∧
    predict_cardiovascular_risk [highRiskSample] = "high" := by
  have h := C4_high_risk_scenario [highRiskSample] [true]
    (by simp [colMean, colVals, highRiskSample])
    (by simp [colMean, colVals, highRiskSample])
    (by simp [colMean, colVals, highRiskSample])
    (by simp)
  exact ⟨h.1, h.2.1⟩

/-- Claim C5: with fewer than 10 samples, or whenever the LSTM oracle
raises, the stress prediction equals the rule-based heuristic, and the
failure is not propagated (the embedding is a total function into labels);
the heuristic returns "moderate" when heart-rate data is entirely absent. -/
theorem C5_stress_fallback (lstm : List VitalsSample → Except String String)
    (vitals : List VitalsSample) :
    (vitals.length < 10 →
      predict_stress_level_lstm lstm vitals = predict_stress_level vitals) ∧
    (∀ e, lstm vitals = Except.error e →
      predict_stress_level_lstm lstm vitals = predict_stress_level vitals) ∧
    (hasHeartRate vitals = false → predict_stress_level vitals = "moderate") := by
  have hfall : (if !vitals.isEmpty then predict_stress_level vitals else "moderate") =
      predict_stress_level vitals := by
    cases vitals with
    | nil => rfl
    | cons a t => rfl
  refine ⟨?_, ?_, ?_⟩
  · intro hlen
    unfold predict_stress_level_lstm
    rw [if_pos hlen]
    exact hfall
  · intro e he
    unfold predict_stress_level_lstm
    by_cases hlen : vitals.length < 10
    · rw [if_pos hlen]
      exact hfall
    · rw [if_neg hlen, he]
      exact hfall
  · intro h
    unfold predict_stress_level
    rw [h]
    simp

/-- Witness for C5: a 12-sample history with constant heart rate 100 on
which the LSTM oracle raises falls back to the heuristic, which returns
"high" (mean 100 > 90). -/
theorem C5_witness :
    predict_stress_level_lstm lstmFail (List.replicate 12 (sHR 100)) =
      predict_stress_level (List.replicate 12 (sHR 100)) ∧
    predict_stress_level (List.replicate 12 (sHR 100)) = "high" := by
  refine ⟨(C5_stress_fallback lstmFail (List.replicate 12 (sHR 100))).2.1
    "inference failure" rfl, ?_⟩
  norm_num [predict_stress_level, hasHeartRate, colMean, colVarD, colVals, sHR,
    List.replicate, List.filterMap]

/-- The heart-rate column passes the availability filter, so the available
column list is non-empty whenever a heart-rate value is present. -/
theorem availableCols_ne_nil {df : List VitalsSample} (h : hasHeartRate df = true) :
    (availableCols df).isEmpty = false := by
  unfold availableCols featureCols
  unfold hasHeartRate at h
  rw [List.filter_cons_of_pos]
  · rfl
  · exact h

/-- Claim C2 (amended): the flag sequence is empty exactly when the batch is
empty or when no sample carries a heart-rate value — the heart-rate column
alone gates detection; otherwise the detector (any per-row outlier model of
the correct shape) yields one flag per row, and totally so. -/
theorem C2_anomaly_flag_count (forest : List (List ℚ) → List Bool)
    (hshape : ∀ X, (forest X).length = X.length)
    (df : List VitalsSample) :
    (detect_anomalies forest df = [] ↔ (df = [] ∨ hasHeartRate df = false)) ∧
    (df ≠ [] → hasHeartRate df = true →
      (detect_anomalies forest df).length = df.length) := by
  have hlen : df ≠ [] → hasHeartRate df = true →
      (detect_anomalies forest df).length = df.length := by
    intro hne hhr
    unfold detect_anomalies
    rw [isEmpty_false_of_ne_nil hne, hhr]
    simp only [Bool.not_true, Bool.or_false, Bool.false_or]
    rw [if_neg (by simp), if_neg (by simp [availableCols_ne_nil hhr])]
    rw [hshape]
    simp [featureMatrix]
  constructor
  · constructor
    · intro hres
      by_contra hcon
      push_neg at hcon
      obtain ⟨hne, hhr⟩ := hcon
      have hhr' : hasHeartRate df = true := by
        cases hb : hasHeartRate df
        · exact absurd hb hhr
        · rfl
      have := hlen hne hhr'
      rw [hres] at this
      have : df.length = 0 := this.symm
      exact hne (List.eq_nil_of_length_eq_zero this)
    · intro h
      rcases h with h | h
      · subst h
        rfl
      · unfold detect_anomalies
        rw [h]
        simp
  · exact hlen

/-- Counterexample for C2 as stated: a non-empty batch carrying an SpO2
value but no heart-rate value yields the empty flag sequence, not one flag
per row — the claim predicted one flag for this one-row batch. -/
theorem C2_counterexample :
    detect_anomalies constForest [spo2Only] = [] ∧
    spo2Only.spo2 = some 97 ∧ spo2Only.heart_rate = none ∧
    (detect_anomalies constForest [spo2Only]).length ≠ [spo2Only].length := by
  refine ⟨rfl, rfl, rfl, ?_⟩
  decide

/-- Witness for C2: the constant (length-preserving) outlier model on a
one-sample batch that does carry a heart rate yields exactly one flag. -/
theorem C2_witness :
    (detect_anomalies constForest [sHR 80]).length = [sHR 80].length :=
  (C2_anomaly_flag_count constForest (fun X => by simp [constForest]) [sHR 80]).2
    (by simp) rfl

/-- The risk score factors through the four penalty conditions. -/
theorem risk_bridge (df : List VitalsSample) (anomalies : List Bool) :
    calculate_risk_score df anomalies =
      riskOfConds (hrPenalty df) (anomalyPenalty df anomalies)
        (spo2Penalty df) (tempPenalty df) := by
  unfold calculate_risk_score riskOfConds hrPenalty anomalyPenalty spo2Penalty tempPenalty
  by_cases hdf : df.isEmpty
  · rw [if_pos hdf]
    have hnil : df = [] := by
      cases df with
      | nil => rfl
      | cons a t => simp at hdf
    subst hnil
    simp only [colMean, colVals, List.filterMap]
    norm_num [min_def, max_def]
  · rw [if_neg hdf]
    cases hhr : colMean VitalsSample.heart_rate df <;>
      cases hsp : colMean VitalsSample.spo2 df <;>
        cases htp : colMean VitalsSample.temperature df <;>
          simp only [Option.isSome_some, Option.isSome_none, Bool.true_and, Bool.false_and,
            decide_eq_true_eq, Bool.false_eq_true, if_false] <;>
            (try split_ifs) <;>
              norm_num [min_def, max_def]

/-- Claim C3: every risk score lies in [0, 100], the score is a function of
the four penalty conditions alone, and enabling any single penalty condition
while holding the other three fixed never decreases the score. -/
theorem C3_risk_range_and_monotone :
    (∀ (df : List VitalsSample) (anomalies : List Bool),
      0 ≤ calculate_risk_score df anomalies ∧ calculate_risk_score df anomalies ≤ 100) ∧
    (∀ (df : List VitalsSample) (anomalies : List Bool),
      calculate_risk_score df anomalies =
        riskOfConds (hrPenalty df) (anomalyPenalty df anomalies)
          (spo2Penalty df) (tempPenalty df)) ∧
    (∀ c2 c3 c4 : Bool, riskOfConds false c2 c3 c4 ≤ riskOfConds true c2 c3 c4) ∧
    (∀ c1 c3 c4 : Bool, riskOfConds c1 false c3 c4 ≤ riskOfConds c1 true c3 c4) ∧
    (∀ c1 c2 c4 : Bool, riskOfConds c1 c2 false c4 ≤ riskOfConds c1 c2 true c4) ∧
    (∀ c1 c2 c3 : Bool, riskOfConds c1 c2 c3 false ≤ riskOfConds c1 c2 c3 true) := by
  have hrange : ∀ c1 c2 c3 c4 : Bool,
      0 ≤ riskOfConds c1 c2 c3 c4 ∧ riskOfConds c1 c2 c3 c4 ≤ 100 := by
    intro c1 c2 c3 c4
    cases c1 <;> cases c2 <;> cases c3 <;> cases c4 <;>
      norm_num [riskOfConds, min_def, max_def]
  refine ⟨?_, risk_bridge, ?_, ?_, ?_, ?_⟩
  · intro df anomalies
    rw [risk_bridge]
    exact hrange _ _ _ _
  · intro c2 c3 c4
    cases c2 <;> cases c3 <;> cases c4 <;> norm_num [riskOfConds, min_def, max_def]
  · intro c1 c3 c4
    cases c1 <;> cases c3 <;> cases c4 <;> norm_num [riskOfConds, min_def, max_def]
  · intro c1 c2 c4
    cases c1 <;> cases c2 <;> cases c4 <;> norm_num [riskOfConds, min_def, max_def]
  · intro c1 c2 c3
    cases c1 <;> cases c2 <;> cases c3 <;> norm_num [riskOfConds, min_def, max_def]

/-- Claim C1 (amended): for every non-empty IMU history with fewer than 50
samples, `prepare_windows` returns a 50-entry window left-padded by
repeating the feature tuple of the LATEST supplied sample (`imu_data[-1]`),
with the supplied samples in order at the end — not the earliest sample, as
the spec states. -/
theorem C1_window_padding (imu : List IMUSample) (hne : imu ≠ [])
    (hlen : imu.length < windowSize) :
    (prepare_windows imu).length = windowSize ∧
    (∀ i, i < windowSize - imu.length →
      (prepare_windows imu)[i]? = some (featTuple (imu.getLast?.getD emptyPoint))) ∧
    (∀ j, j < imu.length →
      (prepare_windows imu)[windowSize - imu.length + j]? = imu[j]?.map featTuple) := by
  have hdata : prepare_windows imu =
      ((List.replicate (windowSize - imu.length) (imu.getLast?.getD emptyPoint) ++ imu).drop
        ((List.replicate (windowSize - imu.length) (imu.getLast?.getD emptyPoint) ++ imu).length
          - windowSize)).map featTuple := by
    unfold prepare_windows
    rw [if_pos hlen]
  have hlen' : (List.replicate (windowSize - imu.length) (imu.getLast?.getD emptyPoint)
      ++ imu).length = windowSize := by
    simp [List.length_append, List.length_replicate]
    omega
  rw [hdata, hlen']
  simp only [Nat.sub_self, List.drop_zero]
  refine ⟨?_, ?_, ?_⟩
  · simp [List.length_append, List.length_replicate]
    omega
  · intro i hi
    rw [List.getElem?_map, List.getElem?_append,
      if_pos (by simpa using hi), List.getElem?_replicate, if_pos hi]
    rfl
  · intro j hj
    rw [List.getElem?_map, List.getElem?_append,
      if_neg (by simp [List.length_replicate])]
    simp [List.length_replicate]

/-- Counterexample for C1 as stated: for the 3-sample history
`[imuPt 1, imuPt 2, imuPt 3]` the first window entry is the tuple of the
LAST sample (`imuPt 3`), which differs from the tuple of the earliest sample
(`imuPt 1`) — so the first 47 entries do not repeat the earliest sample. -/
theorem C1_counterexample :
    (prepare_windows [imuPt 1, imuPt 2, imuPt 3])[0]? = some (featTuple (imuPt 3)) ∧
    featTuple (imuPt 3) ≠ featTuple (imuPt 1) ∧
    (prepare_windows [imuPt 1, imuPt 2, imuPt 3]).length = 50 := by
  refine ⟨?_, by decide, ?_⟩
  · norm_num [prepare_windows, windowSize, imuPt, featTuple]
    decide
  · norm_num [prepare_windows, windowSize]

/-- Witness for C1 (amended): on the 3-sample history the window has 50
entries, entry 46 (inside the padding) is the tuple of the last sample, and
entry 47 is the tuple of the first supplied sample. -/
theorem C1_witness :
    (prepare_windows [imuPt 1, imuPt 2, imuPt 3]).length = windowSize ∧
    (prepare_windows [imuPt 1, imuPt 2, imuPt 3])[46]? =
      some (featTuple ([imuPt 1, imuPt 2, imuPt 3].getLast?.getD emptyPoint)) ∧
    (prepare_windows [imuPt 1, imuPt 2, imuPt 3])[47]? =
      [imuPt 1, imuPt 2, imuPt 3][0]?.map featTuple := by
  have h := C1_window_padding [imuPt 1, imuPt 2, imuPt 3] (by decide) (by decide)
  refine ⟨h.1, ?_, ?_⟩
  · exact h.2.1 46 (by decide)
  · have := h.2.2 0 (by decide)
    simpa [windowSize] using this

/-- Claim C9: the recommendation list is never empty; it is exactly the
neutral maintain-lifestyle singleton iff no gate triggers; and when at least
one gate triggers it is exactly the concatenation, in the fixed order, of
the independently gated advisory singletons. -/
theorem C9_recommendation_order (risk_score : ℚ) (sleep_quality : Int)
    (stress_level : String) (df : List VitalsSample) :
    generate_recommendations risk_score sleep_quality stress_level df ≠ [] ∧
    (generate_recommendations risk_score sleep_quality stress_level df =
        ["Maintain current healthy lifestyle"] ↔
      (¬ risk_score > 70 ∧ ¬ sleep_quality < 70 ∧ stress_level ≠ "high" ∧
        gateSteps df = false ∧ gateSpo2 df = false ∧ gateTemp df = false)) ∧
    ((risk_score > 70 ∨ sleep_quality < 70 ∨ stress_level = "high" ∨
        gateSteps df = true ∨ gateSpo2 df = true ∨ gateTemp df = true) →
      generate_recommendations risk_score sleep_quality stress_level df =
        (if risk_score > 70 then ["Consider consulting a healthcare professional"] else []) ++
        (if sleep_quality < 70 then ["Improve sleep hygiene - aim for 7-9 hours of sleep"] else []) ++
        (if stress_level = "high" then ["Practice stress-reduction techniques (meditation, deep breathing)"] else []) ++
        (if gateSteps df then ["Increase daily activity - aim for at least 10,000 steps"] else []) ++
        (if gateSpo2 df then ["Ensure adequate oxygen intake - consider breathing exercises"] else []) ++
        (if gateTemp df then ["Monitor temperature - consider rest and hydration"] else [])) := by
  unfold generate_recommendations
  split_ifs <;> simp_all

/-- Witness for C9: no gate triggers for a calm input, giving the neutral
singleton; a risk score of 80 alone yields exactly the risk advisory. -/
theorem C9_witness :
    generate_recommendations 50 80 "low" [] = ["Maintain current healthy lifestyle"] ∧
    generate_recommendations 80 80 "low" [] =
      ["Consider consulting a healthcare professional"] := by
  constructor
  · refine (C9_recommendation_order 50 80 "low" []).2.1.mpr ?_
    refine ⟨by norm_num, by norm_num, by simp, ?_, ?_, ?_⟩ <;> rfl
  · have h := (C9_recommendation_order 80 80 "low" []).2.2 (Or.inl (by norm_num))
    rw [h]
    norm_num [gateSteps, gateSpo2, gateTemp, colMean, colVals]
    decide

/-- Claim C6: for every non-empty vitals and IMU history, an error of the
movement-feature computation propagates unchanged (the program raises before
classifying); whenever a motion magnitude is computed, the wake rule fires
iff that magnitude is strictly greater than 0.5 — a returned distribution
has dominant stage "wake" exactly then — and when it fires the returned
distribution is exactly [0.7, 0.2, 0.05, 0.05] with dominant stage "wake";
a magnitude of exactly 0.5 falls through to the later rules. -/
theorem C6_wake_boundary (vitals : List VitalsSample) (imu : List IMUSample)
    (hv : vitals ≠ []) (hi : imu ≠ []) :
    (∀ e, movementFeature imu = Except.error e →
      predict_sleep_stages vitals imu = Except.error e) ∧
    (∀ mv, movementFeature imu = Except.ok mv →
      (((∃ d, predict_sleep_stages vitals imu = Except.ok d ∧
          d.dominant_stage = "wake") ↔ movementGT mv (1/2)) ∧
        (movementGT mv (1/2) →
          predict_sleep_stages vitals imu = Except.ok sleepWakeDist))) := by
  have h0 : (vitals.isEmpty || imu.isEmpty) = false := by
    rw [isEmpty_false_of_ne_nil hv, isEmpty_false_of_ne_nil hi]
    rfl
  unfold predict_sleep_stages
  simp only [h0, Bool.false_eq_true, if_false]
  cases hmf : movementFeature imu with
  | error e =>
    refine ⟨fun e2 he2 => ?_, fun mv hmv => ?_⟩
    · injection he2 with he2
      subst he2
      rfl
    · exact absurd hmv (by simp)
  | ok mv0 =>
    refine ⟨fun e2 he2 => absurd he2 (by simp), fun mv hmv => ?_⟩
    injection hmv with hmv
    subst hmv
    dsimp only
    split_ifs with h1 h2 h3
    · exact ⟨⟨fun _ => h1, fun _ => ⟨sleepWakeDist, rfl, rfl⟩⟩, fun _ => rfl⟩
    · refine ⟨⟨fun hd => ?_, fun hm => absurd hm h1⟩, fun hm => absurd hm h1⟩
      obtain ⟨d, hd1, hd2⟩ := hd
      injection hd1 with hd1
      rw [← hd1] at hd2
      exact absurd hd2 (by decide)
    · refine ⟨⟨fun hd => ?_, fun hm => absurd hm h1⟩, fun hm => absurd hm h1⟩
      obtain ⟨d, hd1, hd2⟩ := hd
      injection hd1 with hd1
      rw [← hd1] at hd2
      exact absurd hd2 (by decide)
    · refine ⟨⟨fun hd => ?_, fun hm => absurd hm h1⟩, fun hm => absurd hm h1⟩
      obtain ⟨d, hd1, hd2⟩ := hd
      injection hd1 with hd1
      rw [← hd1] at hd2
      exact absurd hd2 (by decide)

/-- Witness for C6: a one-point IMU history with acceleration (0.51, 0, 0)
has motion magnitude exactly 0.51 and is classified wake with distribution
[0.7, 0.2, 0.05, 0.05]; acceleration (0.5, 0, 0) has magnitude exactly 0.5
and falls through to the light rule, so the dominant stage is not "wake". -/
theorem C6_witness :
    predict_sleep_stages [sHR 80] [imuPt (51/100)] = Except.ok sleepWakeDist ∧
    predict_sleep_stages [sHR 80] [imuPt (1/2)] = Except.ok
      { wake := 3/20, light := 1/2, deep := 2/10, rem := 3/20, dominant_stage := "light" } := by
  have hA : movementFeature [imuPt (51/100)] = Except.ok (some (51/100)) := by
    simp [movementFeature, rowMagnitude, imuPt]
    rw [Real.sqrt_sq (by norm_num)]
  have hB : movementFeature [imuPt (1/2)] = Except.ok (some (1/2)) := by
    simp [movementFeature, rowMagnitude, imuPt]
  constructor
  · exact ((C6_wake_boundary [sHR 80] [imuPt (51/100)] (by decide) (by decide)).2
      (some (51/100)) hA).2 ⟨51/100, rfl, by norm_num⟩
  · have hngt : ¬ movementGT (some ((1:ℝ)/2)) (1/2) := by
      rintro ⟨v, hv, hgt⟩
      injection hv with hv
      rw [← hv] at hgt
      exact absurd hgt (by norm_num)
    have hhf : hrFeatures [sHR 80] = (80, none) := by
      simp [hrFeatures, hasHeartRate, colMean, colVarD, colVals, sHR]
    unfold predict_sleep_stages
    rw [hB]
    simp only [List.isEmpty_cons, Bool.or_self, Bool.false_eq_true, if_false]
    rw [if_neg hngt, hhf]
    simp [stdLT]

/-- An IMU point that supplies only `accel_x`: the source raises an uncaught
KeyError on the missing `accel_y` column for such a history. -/
def xOnlyPt : IMUSample :=
  { accel_x := some 1, accel_y := none, accel_z := none
    gyro_x := none, gyro_y := none, gyro_z := none }

/-- Claim C7 (amended): whenever `predict_sleep_stages` returns a
distribution, it has four non-negative probabilities that sum to exactly 1
(hence within 1e-6 of 1.0), the dominant stage is the label of the first
arg-max probability, and an empty vitals or IMU history returns the neutral
default [0.2, 0.3, 0.3, 0.2] with dominant stage "light"; on an IMU history
that supplies `accel_x` values but no `accel_y` (or `accel_z`) value the
source raises instead of returning a distribution. -/
theorem C7_sleep_distribution_invariant (vitals : List VitalsSample)
    (imu : List IMUSample) (d : SleepDist)
    (hok : predict_sleep_stages vitals imu = Except.ok d) :
    (0 ≤ d.wake ∧ 0 ≤ d.light ∧ 0 ≤ d.deep ∧ 0 ≤ d.rem) ∧
    d.wake + d.light + d.deep + d.rem = 1 ∧
    |d.wake + d.light + d.deep + d.rem - 1| ≤ 1/1000000 ∧
    d.dominant_stage = argmaxStage d.wake d.light d.deep d.rem ∧
    (vitals = [] ∨ imu = [] → d = sleepDefaultDist) := by
  unfold predict_sleep_stages at hok
  by_cases h0 : (vitals.isEmpty || imu.isEmpty) = true
  · rw [if_pos h0] at hok
    injection hok with hok
    subst hok
    refine ⟨⟨by norm_num [sleepDefaultDist], by norm_num [sleepDefaultDist],
      by norm_num [sleepDefaultDist], by norm_num [sleepDefaultDist]⟩,
      by norm_num [sleepDefaultDist], by norm_num [sleepDefaultDist],
      by norm_num [sleepDefaultDist, argmaxStage, max_def], fun _ => rfl⟩
  · rw [if_neg h0] at hok
    cases hmf : movementFeature imu with
    | error e =>
      rw [hmf] at hok
      exact absurd hok (by simp)
    | ok mv =>
      rw [hmf] at hok
      dsimp only at hok
      split_ifs at hok with h1 h2 h3 <;>
        (injection hok with hok; subst hok) <;>
        refine ⟨⟨by norm_num [sleepWakeDist], by norm_num [sleepWakeDist],
          by norm_num [sleepWakeDist], by norm_num [sleepWakeDist]⟩,
          by norm_num [sleepWakeDist], by norm_num [sleepWakeDist],
          by norm_num [sleepWakeDist, argmaxStage, max_def], ?_⟩ <;>
        (intro hcase; rcases hcase with h | h <;> subst h <;> simp_all)

/-- Counterexample for C7 as stated: on the concrete non-empty input whose
single IMU point supplies an `accel_x` value but no `accel_y` value, the
program raises an uncaught KeyError (here: `Except.error`) and returns no
distribution at all, so the invariant cannot hold "for every input". -/
theorem C7_counterexample :
    predict_sleep_stages [sHR 80] [xOnlyPt] = Except.error "KeyError: accel_y" ∧
    xOnlyPt.accel_x = some 1 ∧ xOnlyPt.accel_y = none ∧ xOnlyPt.accel_z = none := by
  refine ⟨?_, rfl, rfl, rfl⟩
  unfold predict_sleep_stages
  have hmf : movementFeature [xOnlyPt] = Except.error "KeyError: accel_y" := by
    simp [movementFeature, xOnlyPt]
  rw [hmf]
  rfl

/-- Witness for C7: the empty histories return the neutral default, whose
dominant stage is its arg-max label. -/
theorem C7_witness :
    predict_sleep_stages [] [] = Except.ok sleepDefaultDist ∧
    sleepDefaultDist.dominant_stage = argmaxStage sleepDefaultDist.wake
      sleepDefaultDist.light sleepDefaultDist.deep sleepDefaultDist.rem := by
  have h0 : predict_sleep_stages [] [] = Except.ok sleepDefaultDist := rfl
  exact ⟨h0, (C7_sleep_distribution_invariant [] [] sleepDefaultDist h0).2.2.2.1⟩

end SmartWearable
